import Mathlib

/-!
Verification development for the CoinBot trading system.

This file gives a shallow embedding, in Lean 4 over the rationals, of the
parts of the Python sources that the checked properties speak about:

* `core/risk_manager.py` — the pre-trade gate `validate_signal`, and the
  emergency-mode state machine (`enter_emergency_mode`,
  `exit_emergency_mode`, `reset_daily_limits`, `override_risk_controls`,
  `restore_risk_controls`).
* `core/trader.py` — the buy path of `_execute_buy_order`, the
  exit-condition check `_should_close_position`, and the JSON
  serialization of positions (`_save_positions` / `_load_positions`).
* `core/strategy_engine.py` — `update_strategy_performance` together with
  `_calculate_performance_score`, `_adapt_strategy`,
  `_adjust_strategy_parameters`, `cleanup_poor_strategies`, and the JSON
  serialization of strategies (`save_strategies_to_file` /
  `load_strategies_from_file`).
* `core/analyzer.py` — `_calculate_rsi`, `_calculate_ema` and
  `_calculate_macd`.

Modelling conventions: Python floats are modelled as `ℚ` (the float
computations at issue are sums, differences, products, quotients and
comparisons of exactly representable inputs, and every decisive comparison
in the claims is strict on one side); `datetime` values are modelled as
natural-number timestamps, with `isoformat`/`fromisoformat` modelled as an
injective decimal-digit string encoding together with its exact parser —
the property of the real pair that the code relies on (parsing inverts
formatting exactly).  Exchange / pandas I/O results that a function merely
reads (current price, KRW balance, order-book snapshot, the 24h volatility
figure) are supplied as explicit environment inputs.
-/

namespace CoinBot

/-! ## Risk manager: data model (`core/risk_manager.py`) -/

/-- The fields of `StrategySignal` (core/strategy_engine.py) that the risk
manager and the trader read. -/
structure StrategySignal where
  strategy_id : String
  ticker : String
  action : String
  confidence : ℚ
  entry_price : ℚ
  stop_loss : ℚ
  take_profit : ℚ
  deriving DecidableEq, Repr

/-- The `Position` dataclass of core/trader.py.  `entry_time` and
`last_updated` are `datetime` values, modelled as natural-number
timestamps in seconds. -/
structure Position where
  position_id : String
  ticker : String
  strategy_id : String
  entry_price : ℚ
  quantity : ℚ
  total_invested : ℚ
  current_price : ℚ
  current_value : ℚ
  unrealized_pnl : ℚ
  unrealized_pnl_ratio : ℚ
  stop_loss : ℚ
  take_profit : ℚ
  entry_time : ℕ
  last_updated : ℕ
  strategy_name : String
  reasoning : String
  deriving DecidableEq, Repr

/-- Top-of-book orderbook snapshot as read by `_check_spread_risk`
(fields `bid_price`, `ask_price`, `spread` of the data collector's
orderbook object). -/
structure Orderbook where
  bid_price : ℚ
  ask_price : ℚ
  spread : ℚ
  deriving DecidableEq, Repr

/-- The mutable `RiskManager` state relevant to the claims: the
`emergency_mode` and `risk_override` flags, the daily-start-capital
snapshot, the configured limits, and the sizes of the `risk_alerts` and
`risk_history` lists. -/
structure RMState where
  emergency_mode : Bool
  risk_override : Bool
  daily_start_capital : ℚ
  max_daily_loss : ℚ
  max_positions : ℕ
  capital_per_position : ℚ
  alerts : ℕ
  history : ℕ
  deriving DecidableEq, Repr

/-- Environment values `validate_signal` obtains through the data
collector: the current total capital (used by `_calculate_daily_pnl_ratio`),
the ticker's 24h volatility figure (the result of `_check_volatility_risk`,
whose pandas standard-deviation computation is abstracted to its returned
value), and the orderbook snapshot (`None` when `get_orderbook` fails). -/
structure RMEnv where
  currentCapital : ℚ
  volatilityRisk : ℚ
  orderbook : Option Orderbook
  deriving DecidableEq, Repr

/-- Which branch of `validate_signal` produced the verdict; stands for the
human-readable reason strings of the source. -/
inductive Verdict where
  | notBuy
  | emergencyMode
  | dailyLoss
  | maxPositions
  | validationError
  | exposure
  | volatility
  | concentration
  | confidence
  | spread
  | pass
  deriving DecidableEq, Repr

/-- `RiskManager._calculate_daily_pnl_ratio` (risk_manager.py lines
150-167): `(current - start) / start`, or `0.0` when the daily start
capital is not positive. -/
def dailyPnlRatio (st : RMState) (env : RMEnv) : ℚ :=
  if st.daily_start_capital ≤ 0 then 0
  else (env.currentCapital - st.daily_start_capital) / st.daily_start_capital

/-- `RiskManager._calculate_current_exposure` (lines 189-201): the sum of
`current_value` over the open positions. -/
def currentExposure (positions : List Position) : ℚ :=
  (positions.map (fun p => p.current_value)).sum

/-- The hard-coded BTC cluster of `_check_concentration_risk`. -/
def btcRelated : List String := ["KRW-BTC", "KRW-BCH", "KRW-BSV"]

/-- The hard-coded ETH cluster of `_check_concentration_risk`. -/
def ethRelated : List String := ["KRW-ETH", "KRW-ETC", "KRW-EOS"]

/-- `RiskManager._check_concentration_risk` (lines 225-251), as the
boolean "a concentration reason was returned": the ticker duplicates an
open position, or two or more positions already sit in the same hard-coded
cluster as the ticker. -/
def concentrationRisk (ticker : String) (positions : List Position) : Bool :=
  if positions.any (fun p => p.ticker = ticker) then true
  else if ticker ∈ btcRelated ∧
      2 ≤ (positions.filter (fun p => p.ticker ∈ btcRelated)).length then true
  else if ticker ∈ ethRelated ∧
      2 ≤ (positions.filter (fun p => p.ticker ∈ ethRelated)).length then true
  else false

/-- `RiskManager._check_spread_risk` (lines 253-270): spread over
mid-price, with `0.01` as the default when there is no orderbook or the
mid-price is not positive. -/
def spreadRisk (ob : Option Orderbook) : ℚ :=
  match ob with
  | none => 1/100
  | some ob =>
    let mid := (ob.bid_price + ob.ask_price) / 2
    if 0 < mid then ob.spread / mid else 1/100

/-- `RiskManager.validate_signal` (risk_manager.py lines 99-148).  The
checks appear in the source's order; `max_total_exposure = 0.95` and
`max_volatility_threshold = 0.15` are the constants set in `__init__`.
The `validationError` branch models the `ZeroDivisionError` raised by the
exposure quotient when `daily_start_capital` is zero, which the enclosing
`try/except` turns into a rejection. -/
def validateSignal (st : RMState) (env : RMEnv) (signal : StrategySignal)
    (positions : List Position) : Bool × Verdict :=
  if signal.action ≠ "BUY" then (true, .notBuy)
  else if st.emergency_mode then (false, .emergencyMode)
  else if dailyPnlRatio st env ≤ -st.max_daily_loss then (false, .dailyLoss)
  else if st.max_positions ≤ positions.length then (false, .maxPositions)
  else if st.daily_start_capital = 0 then (false, .validationError)
  else if 95/100 <
      (currentExposure positions + st.capital_per_position) / st.daily_start_capital then
    (false, .exposure)
  else if 15/100 < env.volatilityRisk then (false, .volatility)
  else if concentrationRisk signal.ticker positions then (false, .concentration)
  else if signal.confidence < 7/10 then (false, .confidence)
  else if 2/100 < spreadRisk env.orderbook then (false, .spread)
  else (true, .pass)

/-! ## Risk manager: emergency-mode state machine -/

/-- The risk-manager operations of `core/risk_manager.py` relevant to the
emergency-mode latch.  `validate`, `metrics` and `checkRisks` stand for
`validate_signal`, `calculate_risk_metrics` and `check_position_risks`,
none of which writes any state; `saveHistory` is `save_risk_history`;
`resetDaily` carries the freshly computed daily start capital that
`_initialize_daily_capital` would store. -/
inductive RMOp where
  | validate
  | metrics
  | checkRisks
  | saveHistory
  | enter
  | exitEmergency
  | resetDaily (newCapital : ℚ)
  | overrideOn
  | restoreOverride
  deriving DecidableEq, Repr

/-- One step of the risk manager, following the state writes each method
performs: `enter_emergency_mode` sets the flag and appends an alert;
`exit_emergency_mode` clears the flag; `reset_daily_limits` re-initializes
the daily capital, clears the alerts, then exits emergency mode only when
`risk_override` is not set; `override_risk_controls` /
`restore_risk_controls` toggle `risk_override`. -/
def rmStep (s : RMState) : RMOp → RMState
  | .validate => s
  | .metrics => s
  | .checkRisks => s
  | .saveHistory => { s with history := s.history + 1 }
  | .enter => { s with emergency_mode := true, alerts := s.alerts + 1 }
  | .exitEmergency => { s with emergency_mode := false }
  | .resetDaily c =>
    let s' := { s with daily_start_capital := c, alerts := 0 }
    if s'.emergency_mode ∧ ¬ s'.risk_override then
      { s' with emergency_mode := false }
    else s'
  | .overrideOn => { s with risk_override := true }
  | .restoreOverride => { s with risk_override := false }

/-- Running a sequence of risk-manager operations. -/
def rmRun (s : RMState) (ops : List RMOp) : RMState :=
  ops.foldl rmStep s

/-- An operation that can clear the emergency latch: an explicit
`exit_emergency_mode` or a daily reset. -/
def clearsEmergency : RMOp → Bool
  | .exitEmergency => true
  | .resetDaily _ => true
  | _ => false

/-! ## Trader (`core/trader.py`) -/

/-- The exit reason returned by `Trader._should_close_position` (the
`'type'` field of its result dictionary). -/
inductive ExitReason where
  | stopLoss
  | takeProfit
  | timeBased
  | forceTime
  | emergency
  deriving DecidableEq, Repr

/-- `Trader._should_close_position` (trader.py lines 473-521).  `now` is
the current time in seconds; `holding_hours = (now - entry_time)/3600`.
The checks appear in the source's order: stop-loss, take-profit, the
24-hour loss-based check, the 72-hour force check, then the −10%
emergency check. -/
def shouldClosePosition (now : ℕ) (p : Position) : Option ExitReason :=
  if p.current_price ≤ p.stop_loss then some .stopLoss
  else if p.take_profit ≤ p.current_price then some .takeProfit
  else
    let holdingHours : ℚ := ((now : ℚ) - (p.entry_time : ℚ)) / 3600
    if 24 ≤ holdingHours ∧ p.unrealized_pnl_ratio < -(2/100) then some .timeBased
    else if 72 ≤ holdingHours then some .forceTime
    else if p.unrealized_pnl_ratio ≤ -(10/100) then some .emergency
    else none

/-- The trader-side configuration read by `_execute_buy_order`. -/
structure TraderState where
  capital_per_position : ℚ
  min_order_amount : ℚ
  max_positions : ℕ
  deriving DecidableEq, Repr

/-- Environment values `_execute_buy_order` obtains through the data
collector: the current price of the ticker (`None` when the lookup fails)
and the available KRW balance. -/
structure BuyEnv where
  current_price : Option ℚ
  krw_balance : ℚ
  deriving DecidableEq, Repr

/-- The notional amount `Trader._execute_buy_order` (trader.py lines
177-242) submits to `upbit.buy_market_order`: the configured
`capital_per_position`, submitted only when the current price is known and
the KRW balance is at least that amount; `none` means no order is
submitted. -/
def submittedBuyAmount (st : TraderState) (env : BuyEnv) : Option ℚ :=
  match env.current_price with
  | none => none
  | some _ =>
    let amount := st.capital_per_position
    if env.krw_balance < amount then none
    else some amount

/-! ## Strategy engine (`core/strategy_engine.py`) -/

/-- The fields of `TradingStrategy` that `update_strategy_performance`
and its helpers read and write.  `min_score`, `stop_loss` and
`profit_target` are the `entry_conditions['min_score']`,
`exit_conditions['stop_loss']` and `exit_conditions['profit_target']`
entries, present in every as-shipped strategy template; `last_used` is a
timestamp in seconds. -/
structure PerfStrategy where
  total_trades : ℕ
  winning_trades : ℕ
  total_profit : ℚ
  max_drawdown : ℚ
  win_rate : ℚ
  avg_profit : ℚ
  performance_score : ℚ
  is_active : Bool
  adaptation_count : ℕ
  success_streak : ℕ
  failure_streak : ℕ
  min_score : ℚ
  stop_loss : ℚ
  profit_target : ℚ
  last_used : ℕ
  deriving DecidableEq, Repr

/-- The trade-result dictionary passed to `update_strategy_performance`:
`profit_ratio` is `none` when the key is absent (the source then uses 0). -/
structure TradeResult where
  profit_ratio : Option ℚ
  deriving DecidableEq, Repr

/-- `StrategyEngine._calculate_performance_score` (strategy_engine.py
lines 526-554): `winRate * (1 + avgProfit)` weighted by trade count
(capped at 20 trades), a ±10% streak factor, and a drawdown penalty,
clamped to `[0, 2]`. -/
def calcPerformanceScore (s : PerfStrategy) : ℚ :=
  if s.total_trades = 0 then 0
  else
    let baseScore := s.win_rate * (1 + s.avg_profit)
    let tradeWeight := min ((s.total_trades : ℚ) / 20) 1
    let streakFactor : ℚ :=
      if 3 ≤ s.success_streak then 11/10
      else if 3 ≤ s.failure_streak then 9/10
      else 1
    let drawdownPenalty := max 0 (1 + s.max_drawdown)
    max 0 (min (baseScore * tradeWeight * streakFactor * drawdownPenalty) 2)

/-- `StrategyEngine._adjust_strategy_parameters` (lines 582-602),
"conservative" branch: raise `min_score` (capped at 95) and `stop_loss`
(capped at 0.12). -/
def adjustConservative (s : PerfStrategy) : PerfStrategy :=
  { s with
    min_score := min 95 (s.min_score + 5)
    stop_loss := min (12/100) (s.stop_loss + 1/100) }

/-- `StrategyEngine._adjust_strategy_parameters`, "aggressive" branch:
lower `min_score` (floored at 65) and raise `profit_target` (capped at
0.25). -/
def adjustAggressive (s : PerfStrategy) : PerfStrategy :=
  { s with
    min_score := max 65 (s.min_score - 3)
    profit_target := min (25/100) (s.profit_target + 2/100) }

/-- The first half of `StrategyEngine._adapt_strategy` (lines 556-580):
bump the adaptation counter and nudge parameters on a streak of 3
failures / 5 successes. -/
def adaptNudge (s : PerfStrategy) : PerfStrategy :=
  let s1 := { s with adaptation_count := s.adaptation_count + 1 }
  if 3 ≤ s1.failure_streak then adjustConservative s1
  else if 5 ≤ s1.success_streak then adjustAggressive s1
  else s1

/-- `StrategyEngine._adapt_strategy`: after the nudge, deactivate a
strategy with at least 10 trades, performance score below 0.3, and a
failure streak of at least 5. -/
def adaptStrategy (s : PerfStrategy) : PerfStrategy :=
  let s2 := adaptNudge s
  if 10 ≤ s2.total_trades ∧ s2.performance_score < 3/10 ∧ 5 ≤ s2.failure_streak then
    { s2 with is_active := false }
  else s2

/-- The per-strategy effect of `StrategyEngine.update_strategy_performance`
(lines 479-524), in the source's mutation order: bump the trade counter
and `last_used`, add the profit (0 when absent), update win counter and
streaks on the sign of the profit, recompute `win_rate`, `avg_profit` and
the running worst drawdown, recompute the performance score, then run
`_adapt_strategy`. -/
def applyTradeResult (s : PerfStrategy) (tr : TradeResult) (now : ℕ) : PerfStrategy :=
  let profit := tr.profit_ratio.getD 0
  let s1 := { s with
    total_trades := s.total_trades + 1
    last_used := now
    total_profit := s.total_profit + profit }
  let s2 :=
    if 0 < profit then
      { s1 with
        winning_trades := s1.winning_trades + 1
        success_streak := s1.success_streak + 1
        failure_streak := 0 }
    else
      { s1 with success_streak := 0, failure_streak := s1.failure_streak + 1 }
  let s3 := { s2 with
    win_rate := (s2.winning_trades : ℚ) / (s2.total_trades : ℚ)
    avg_profit := s2.total_profit / (s2.total_trades : ℚ)
    max_drawdown := if profit < s2.max_drawdown then profit else s2.max_drawdown }
  let s4 := { s3 with performance_score := calcPerformanceScore s3 }
  adaptStrategy s4

/-- `StrategyEngine.update_strategy_performance` on the whole registry
(keyed by strategy id): the identified strategy is updated in place, an
unknown id leaves the registry unchanged. -/
def updateStrategyPerformance (reg : List (String × PerfStrategy)) (sid : String)
    (tr : TradeResult) (now : ℕ) : List (String × PerfStrategy) :=
  reg.map (fun kv => if kv.1 = sid then (kv.1, applyTradeResult kv.2 tr now) else kv)

/-- The removal predicate of `StrategyEngine.cleanup_poor_strategies`
(lines 730-760): unused for more than 24 hours with at least 5 trades and
a performance score below 0.2, or a failure streak of at least 5 with at
least 5 trades. -/
def cleanupRemovable (now : ℕ) (s : PerfStrategy) : Bool :=
  (24 < ((now : ℚ) - (s.last_used : ℚ)) / 3600 ∧
    5 ≤ s.total_trades ∧ s.performance_score < 2/10) ∨
  (5 ≤ s.failure_streak ∧ 5 ≤ s.total_trades)

/-- `StrategyEngine.cleanup_poor_strategies`: delete the removable
strategies, but only when at least 2 strategies would remain; otherwise
delete nothing. -/
def cleanupPoorStrategies (reg : List (String × PerfStrategy)) (now : ℕ) :
    List (String × PerfStrategy) :=
  let toRemove := reg.filter (fun kv => cleanupRemovable now kv.2)
  if 2 ≤ reg.length - toRemove.length then
    reg.filter (fun kv => !(cleanupRemovable now kv.2))
  else reg

/-- The number of strategies with `is_active = true` in a registry. -/
def activeCount (reg : List (String × PerfStrategy)) : ℕ :=
  (reg.filter (fun kv => kv.2.is_active)).length

/-! ## Technical analyzer (`core/analyzer.py`) -/

/-- Weighted sum `x₀ + β·x₁ + β²·x₂ + ⋯` over a list given newest-first,
the numerator of pandas' adjusted exponentially weighted mean. -/
def emaWeightedSum (β : ℚ) : List ℚ → ℚ
  | [] => 0
  | x :: xs => x + β * emaWeightedSum β xs

/-- Weight total `1 + β + β² + ⋯ + β^(n-1)`, the denominator of pandas'
adjusted exponentially weighted mean. -/
def emaWeightCount (β : ℚ) : ℕ → ℚ
  | 0 => 0
  | n + 1 => 1 + β * emaWeightCount β n

/-- `TechnicalAnalyzer._calculate_ema` (analyzer.py lines 207-213): the
last value of `prices.ewm(span=period).mean()`, i.e. the adjusted
exponentially weighted mean with `β = 1 − 2/(span+1) = (span−1)/(span+1)`
over the whole series; `0.0` on an empty series or invalid span (the
source's `except` branch). -/
def emaLast (span : ℕ) (xs : List ℚ) : ℚ :=
  if span = 0 ∨ xs = [] then 0
  else
    let β : ℚ := ((span : ℚ) - 1) / ((span : ℚ) + 1)
    emaWeightedSum β xs.reverse / emaWeightCount β xs.length

/-- The result dictionary of `_calculate_macd`. -/
structure MacdResult where
  macd : ℚ
  signalLine : ℚ
  histogram : ℚ
  deriving DecidableEq, Repr

/-- `TechnicalAnalyzer._calculate_macd` (analyzer.py lines 179-197).
Because `_calculate_ema` returns a scalar, `macd_line` is a scalar and
`macd_series = pd.Series([macd_line] * len(prices))` is a constant
series; the "signal line" is the EMA of that constant series. -/
def calcMacd (prices : List ℚ) (fast slow signal : ℕ) : MacdResult :=
  let emaFast := emaLast fast prices
  let emaSlow := emaLast slow prices
  let macdLine := emaFast - emaSlow
  let signalLine := emaLast signal (List.replicate prices.length macdLine)
  { macd := macdLine, signalLine := signalLine, histogram := macdLine - signalLine }

/-- The nonempty prefixes of a list, oldest-first (helper for the
spec-side MACD series). -/
def listPrefixes : List ℚ → List (List ℚ)
  | [] => []
  | x :: xs => [x] :: (listPrefixes xs).map (fun l => x :: l)

/-- Modelled from the spec (for comparison with `calcMacd`): the MACD
*time series*, whose value at each index is EMA(fast) − EMA(slow) of the
prices up to that index — what `prices.ewm(...)` would produce if the EMAs
were kept as series. -/
def specMacdSeries (prices : List ℚ) (fast slow : ℕ) : List ℚ :=
  (listPrefixes prices).map (fun pfx => emaLast fast pfx - emaLast slow pfx)

/-- Modelled from the spec (for comparison with `calcMacd`): the signal
line as the spec states it — the EMA(signal) of the MACD-line series. -/
def specSignalLine (prices : List ℚ) (fast slow signal : ℕ) : ℚ :=
  emaLast signal (specMacdSeries prices fast slow)

/-- `prices.diff()` (pandas): `none` models the leading `NaN`, then the
consecutive differences. -/
def deltasFrom : ℚ → List ℚ → List (Option ℚ)
  | _, [] => []
  | prev, x :: xs => some (x - prev) :: deltasFrom x xs

/-- `prices.diff()` on the whole series. -/
def deltas : List ℚ → List (Option ℚ)
  | [] => []
  | p :: rest => none :: deltasFrom p rest

/-- `delta.where(delta > 0, 0)` applied elementwise: the leading `NaN`
compares false against 0 and is replaced by 0. -/
def gainOf : Option ℚ → ℚ
  | none => 0
  | some d => if 0 < d then d else 0

/-- `(-delta.where(delta < 0, 0))` applied elementwise: the leading `NaN`
compares false, is replaced by 0, and negation keeps it 0. -/
def lossOf : Option ℚ → ℚ
  | none => 0
  | some d => if d < 0 then -d else 0

/-- The last value of `series.rolling(window=w).mean()`: the mean of the
last `w` entries, `none` (NaN) when the series is shorter than the window
or the window is invalid. -/
def lastRollingMean (w : ℕ) (xs : List ℚ) : Option ℚ :=
  if 1 ≤ w ∧ w ≤ xs.length then
    some ((xs.drop (xs.length - w)).sum / (w : ℚ))
  else none

/-- `TechnicalAnalyzer._calculate_rsi` (analyzer.py lines 167-177) on the
final element: `rs = gain/loss`, `rsi = 100 − 100/(1+rs)`, with float
semantics at the division: `loss = 0, gain > 0` gives `rs = inf` and
`rsi = 100.0`; `loss = 0, gain = 0` gives `rs = NaN` so the source
returns `50.0`; a NaN rolling mean (series shorter than the window, or an
empty/invalid series, which raises and hits the `except`) returns
`50.0`. -/
def calcRsi (prices : List ℚ) (period : ℕ) : ℚ :=
  let ds := deltas prices
  match lastRollingMean period (ds.map gainOf), lastRollingMean period (ds.map lossOf) with
  | some g, some l =>
    if l = 0 then (if g = 0 then 50 else 100)
    else 100 - 100 / (1 + g / l)
  | _, _ => 50

/-! ## JSON persistence (`strategy_engine.py` / `trader.py`)

The condition dictionaries of the as-shipped strategies map string keys to
scalars (ints, floats, booleans) or to flat tuples/lists of scalars, so
Python values are modelled at that shape.  `json.dump` writes a tuple as a
JSON array, and `json.load` reads every array back as a Python list — the
one shape change of the round trip. -/

/-- A scalar Python value as it appears in the condition dictionaries and
record fields: int, float, bool or string.  JSON serialization is exact on
all four. -/
inductive PyScalar where
  | sint (n : ℤ)
  | sfloat (q : ℚ)
  | sbool (b : Bool)
  | sstr (s : String)
  deriving DecidableEq, Repr

/-- A Python value in a condition dictionary: a scalar, a list of
scalars, or a tuple of scalars. -/
inductive PyVal where
  | scal (s : PyScalar)
  | plist (xs : List PyScalar)
  | ptuple (xs : List PyScalar)
  deriving DecidableEq, Repr

/-- A JSON value of the same shape: a scalar or an array (JSON has no
tuples). -/
inductive JVal where
  | jscal (s : PyScalar)
  | jarr (xs : List PyScalar)
  deriving DecidableEq, Repr

/-- `json.dump` on one value: lists and tuples both become arrays. -/
def pyToJson : PyVal → JVal
  | .scal s => .jscal s
  | .plist xs => .jarr xs
  | .ptuple xs => .jarr xs

/-- `json.load` on one value: every array becomes a list. -/
def jsonToPy : JVal → PyVal
  | .jscal s => .scal s
  | .jarr xs => .plist xs

/-- A value free of tuples (round-tripping such a value is exact). -/
def tupleFree : PyVal → Bool
  | .ptuple _ => false
  | _ => true

/-- `json.dump` on a condition dictionary. -/
def dictToJson (d : List (String × PyVal)) : List (String × JVal) :=
  d.map (fun kv => (kv.1, pyToJson kv.2))

/-- `json.load` on a condition dictionary. -/
def dictToPy (d : List (String × JVal)) : List (String × PyVal) :=
  d.map (fun kv => (kv.1, jsonToPy kv.2))

/-! ### The datetime string encoding

`datetime` values are modelled as natural-number timestamps;
`isoformat`/`fromisoformat` are modelled as the decimal-digit string
encoding and its exact parser, which share with the real pair the
properties the code relies on: formatting is injective and parsing
inverts it exactly (a malformed string makes the parser fail, as
`datetime.fromisoformat` raises). -/

/-- The character of a decimal digit. -/
def digitChar (d : ℕ) : Char := Char.ofNat (48 + d)

/-- The digit of a decimal character. -/
def charDigit (c : Char) : ℕ := c.toNat - 48

/-- Is this character a decimal digit? -/
def isDigitChar (c : Char) : Bool := 48 ≤ c.toNat ∧ c.toNat ≤ 57

/-- Models `datetime.isoformat`: the injective textual encoding of a
timestamp (decimal, most significant digit first). -/
def isoformat (t : ℕ) : String :=
  if t = 0 then "0"
  else ⟨((Nat.digits 10 t).map digitChar).reverse⟩

/-- Models `datetime.fromisoformat`: the exact parser of `isoformat`,
failing (as the library function raises) on anything else. -/
def fromisoformat (s : String) : Option ℕ :=
  if s.data ≠ [] ∧ s.data.all isDigitChar then
    some (Nat.ofDigits 10 (s.data.reverse.map charDigit))
  else none

/-! ### Strategy snapshot (`save_strategies_to_file` /
`load_strategies_from_file`, strategy_engine.py lines 811-896) -/

/-- The `TradingStrategy` dataclass fields that
`save_strategies_to_file` writes (lines 820-839), with the condition
dictionaries as Python values and the datetimes as timestamps. -/
structure StrategyRec where
  strategy_id : String
  name : String
  strategy_type : String
  entry_conditions : List (String × PyVal)
  exit_conditions : List (String × PyVal)
  total_trades : ℤ
  winning_trades : ℤ
  total_profit : ℚ
  max_drawdown : ℚ
  win_rate : ℚ
  avg_profit : ℚ
  performance_score : ℚ
  created_at : ℕ
  last_used : ℕ
  is_active : Bool
  adaptation_count : ℤ
  success_streak : ℤ
  failure_streak : ℤ
  deriving DecidableEq, Repr

/-- One strategy's record inside the JSON snapshot file: condition
dictionaries as JSON values, datetimes as their `isoformat` strings. -/
structure StrategyJson where
  strategy_id : String
  name : String
  strategy_type : String
  entry_conditions : List (String × JVal)
  exit_conditions : List (String × JVal)
  total_trades : ℤ
  winning_trades : ℤ
  total_profit : ℚ
  max_drawdown : ℚ
  win_rate : ℚ
  avg_profit : ℚ
  performance_score : ℚ
  created_at : String
  last_used : String
  is_active : Bool
  adaptation_count : ℤ
  success_streak : ℤ
  failure_streak : ℤ
  deriving DecidableEq, Repr

/-- The per-strategy serialization of `save_strategies_to_file`
(field-for-field as the source's dictionary literal). -/
def saveStrategy (s : StrategyRec) : StrategyJson where
  strategy_id := s.strategy_id
  name := s.name
  strategy_type := s.strategy_type
  entry_conditions := dictToJson s.entry_conditions
  exit_conditions := dictToJson s.exit_conditions
  total_trades := s.total_trades
  winning_trades := s.winning_trades
  total_profit := s.total_profit
  max_drawdown := s.max_drawdown
  win_rate := s.win_rate
  avg_profit := s.avg_profit
  performance_score := s.performance_score
  created_at := isoformat s.created_at
  last_used := isoformat s.last_used
  is_active := s.is_active
  adaptation_count := s.adaptation_count
  success_streak := s.success_streak
  failure_streak := s.failure_streak

/-- The per-strategy restoration of `load_strategies_from_file` (lines
868-887): every field is taken as stored, the datetimes are parsed back;
a failing parse raises in the source and aborts the whole load. -/
def loadStrategy (sj : StrategyJson) : Option StrategyRec :=
  match fromisoformat sj.created_at, fromisoformat sj.last_used with
  | some ca, some lu =>
    some {
      strategy_id := sj.strategy_id
      name := sj.name
      strategy_type := sj.strategy_type
      entry_conditions := dictToPy sj.entry_conditions
      exit_conditions := dictToPy sj.exit_conditions
      total_trades := sj.total_trades
      winning_trades := sj.winning_trades
      total_profit := sj.total_profit
      max_drawdown := sj.max_drawdown
      win_rate := sj.win_rate
      avg_profit := sj.avg_profit
      performance_score := sj.performance_score
      created_at := ca
      last_used := lu
      is_active := sj.is_active
      adaptation_count := sj.adaptation_count
      success_streak := sj.success_streak
      failure_streak := sj.failure_streak }
  | _, _ => none

/-- `save_strategies_to_file` on the registry (keyed by strategy id). -/
def saveStrategies (reg : List (String × StrategyRec)) : List (String × StrategyJson) :=
  reg.map (fun kv => (kv.1, saveStrategy kv.2))

/-- `load_strategies_from_file` on the stored registry: any failing
record aborts the whole load (the source's `except` leaves the previous
registry in place). -/
def loadStrategies : List (String × StrategyJson) → Option (List (String × StrategyRec))
  | [] => some []
  | (k, sj) :: rest =>
    match loadStrategy sj, loadStrategies rest with
    | some s, some r => some ((k, s) :: r)
    | _, _ => none

/-- Every condition value of the strategy is tuple-free. -/
def strategyTupleFree (s : StrategyRec) : Bool :=
  s.entry_conditions.all (fun kv => tupleFree kv.2) ∧
  s.exit_conditions.all (fun kv => tupleFree kv.2)

/-! ### Position snapshot (`_save_positions` / `_load_positions`,
trader.py lines 536-613) -/

/-- One position's record inside `data/trades/positions.json`: every
numeric/string field as stored, datetimes as their `isoformat` strings. -/
structure PositionJson where
  position_id : String
  ticker : String
  strategy_id : String
  entry_price : ℚ
  quantity : ℚ
  total_invested : ℚ
  current_price : ℚ
  current_value : ℚ
  unrealized_pnl : ℚ
  unrealized_pnl_ratio : ℚ
  stop_loss : ℚ
  take_profit : ℚ
  entry_time : String
  last_updated : String
  strategy_name : String
  reasoning : String
  deriving DecidableEq, Repr

/-- The per-position serialization of `Trader._save_positions`
(field-for-field as the source's dictionary literal, lines 542-559). -/
def savePosition (p : Position) : PositionJson where
  position_id := p.position_id
  ticker := p.ticker
  strategy_id := p.strategy_id
  entry_price := p.entry_price
  quantity := p.quantity
  total_invested := p.total_invested
  current_price := p.current_price
  current_value := p.current_value
  unrealized_pnl := p.unrealized_pnl
  unrealized_pnl_ratio := p.unrealized_pnl_ratio
  stop_loss := p.stop_loss
  take_profit := p.take_profit
  entry_time := isoformat p.entry_time
  last_updated := isoformat p.last_updated
  strategy_name := p.strategy_name
  reasoning := p.reasoning

/-- The per-position restoration of `Trader._load_positions` (lines
588-605). -/
def loadPosition (pj : PositionJson) : Option Position :=
  match fromisoformat pj.entry_time, fromisoformat pj.last_updated with
  | some et, some lu =>
    some {
      position_id := pj.position_id
      ticker := pj.ticker
      strategy_id := pj.strategy_id
      entry_price := pj.entry_price
      quantity := pj.quantity
      total_invested := pj.total_invested
      current_price := pj.current_price
      current_value := pj.current_value
      unrealized_pnl := pj.unrealized_pnl
      unrealized_pnl_ratio := pj.unrealized_pnl_ratio
      stop_loss := pj.stop_loss
      take_profit := pj.take_profit
      entry_time := et
      last_updated := lu
      strategy_name := pj.strategy_name
      reasoning := pj.reasoning }
  | _, _ => none

/-- `_save_positions` on the position map (keyed by position id). -/
def savePositions (m : List (String × Position)) : List (String × PositionJson) :=
  m.map (fun kv => (kv.1, savePosition kv.2))

/-- `_load_positions` on the stored map: a failing record raises in the
source and aborts the whole load (the `except` resets the map). -/
def loadPositions : List (String × PositionJson) → Option (List (String × Position))
  | [] => some []
  | (k, pj) :: rest =>
    match loadPosition pj, loadPositions rest with
    | some p, some r => some ((k, p) :: r)
    | _, _ => none

/-! ## Round-trip lemmas for the persistence layer -/

theorem charDigit_digitChar {d : ℕ} (hd : d < 10) : charDigit (digitChar d) = d := by
  interval_cases d <;> decide

theorem isDigitChar_digitChar {d : ℕ} (hd : d < 10) : isDigitChar (digitChar d) = true := by
  interval_cases d <;> decide

/-- Parsing inverts formatting exactly on every timestamp. -/
theorem fromisoformat_isoformat (t : ℕ) : fromisoformat (isoformat t) = some t := by
  rcases eq_or_ne t 0 with rfl | ht
  · decide
  · have hd : ∀ d ∈ Nat.digits 10 t, d < 10 := fun d hmem =>
      Nat.digits_lt_base (by norm_num) hmem
    have hne : Nat.digits 10 t ≠ [] := Nat.digits_ne_nil_iff_ne_zero.mpr ht
    have hdata : (isoformat t).data = ((Nat.digits 10 t).map digitChar).reverse := by
      simp [isoformat, ht]
    rw [fromisoformat, if_pos, hdata, List.reverse_reverse, List.map_map]
    · have hcongr : (Nat.digits 10 t).map (charDigit ∘ digitChar) =
          (Nat.digits 10 t).map id :=
        List.map_congr_left (fun d hmem => charDigit_digitChar (hd d hmem))
      rw [hcongr, List.map_id, Nat.ofDigits_digits]
    · constructor
      · rw [hdata]
        simp only [ne_eq, List.reverse_eq_nil_iff, List.map_eq_nil_iff]
        exact hne
      · rw [hdata, List.all_eq_true]
        intro c hc
        rw [List.mem_reverse, List.mem_map] at hc
        obtain ⟨d, hdm, rfl⟩ := hc
        exact isDigitChar_digitChar (hd d hdm)

/-- A tuple-free Python value survives the JSON round trip unchanged. -/
theorem jsonToPy_pyToJson {v : PyVal} (h : tupleFree v = true) :
    jsonToPy (pyToJson v) = v := by
  cases v with
  | scal s => rfl
  | plist xs => rfl
  | ptuple xs => simp [tupleFree] at h

/-- A condition dictionary with tuple-free values survives the JSON round
trip unchanged. -/
theorem dictToPy_dictToJson {d : List (String × PyVal)}
    (h : d.all (fun kv => tupleFree kv.2) = true) : dictToPy (dictToJson d) = d := by
  induction d with
  | nil => rfl
  | cons kv rest ih =>
    rw [List.all_cons, Bool.and_eq_true] at h
    simp only [dictToJson, dictToPy, List.map_cons] at *
    rw [jsonToPy_pyToJson h.1, ih h.2]

/-- A strategy record with tuple-free condition values survives the
snapshot round trip unchanged. -/
theorem loadStrategy_saveStrategy {s : StrategyRec} (h : strategyTupleFree s = true) :
    loadStrategy (saveStrategy s) = some s := by
  rw [strategyTupleFree] at h
  simp only [Bool.and_eq_true, decide_eq_true_eq] at h
  rw [loadStrategy, saveStrategy]
  simp only [fromisoformat_isoformat]
  rw [dictToPy_dictToJson h.1, dictToPy_dictToJson h.2]

/-- A position record always survives the snapshot round trip
unchanged. -/
theorem loadPosition_savePosition (p : Position) :
    loadPosition (savePosition p) = some p := by
  rw [loadPosition, savePosition]
  simp only [fromisoformat_isoformat]

/-- The whole strategy registry survives the round trip when every
condition value is tuple-free. -/
theorem loadStrategies_saveStrategies {reg : List (String × StrategyRec)}
    (h : ∀ kv ∈ reg, strategyTupleFree kv.2 = true) :
    loadStrategies (saveStrategies reg) = some reg := by
  induction reg with
  | nil => rfl
  | cons kv rest ih =>
    obtain ⟨k, s⟩ := kv
    simp only [saveStrategies, List.map_cons, loadStrategies]
    rw [loadStrategy_saveStrategy (h (k, s) (List.mem_cons_self _ _))]
    have : loadStrategies (rest.map (fun kv => (kv.1, saveStrategy kv.2))) = some rest := by
      have := ih (fun kv hm => h kv (List.mem_cons_of_mem _ hm))
      simpa [saveStrategies] using this
    rw [this]

/-- The whole position map always survives the round trip. -/
theorem loadPositions_savePositions (m : List (String × Position)) :
    loadPositions (savePositions m) = some m := by
  induction m with
  | nil => rfl
  | cons kv rest ih =>
    obtain ⟨k, p⟩ := kv
    simp only [savePositions, List.map_cons, loadPositions]
    rw [loadPosition_savePosition]
    have : loadPositions (rest.map (fun kv => (kv.1, savePosition kv.2))) = some rest := by
      simpa [savePositions] using ih
    rw [this]

/-- Round-tripping one strategy record rewrites only the condition
dictionaries (through JSON), and restores every other field exactly. -/
theorem loadStrategy_saveStrategy_eq (s : StrategyRec) :
    loadStrategy (saveStrategy s) = some
      { s with
        entry_conditions := dictToPy (dictToJson s.entry_conditions)
        exit_conditions := dictToPy (dictToJson s.exit_conditions) } := by
  rw [loadStrategy, saveStrategy]
  simp only [fromisoformat_isoformat]

/-- The `entry_conditions` of the as-shipped MOMENTUM template
(strategy_engine.py lines 105-111): note the tuple-valued
`rsi_range`. -/
def momentumEntryConds : List (String × PyVal) :=
  [("min_score", .scal (.sint 55)),
   ("rsi_range", .ptuple [.sint 25, .sint 65]),
   ("volume_surge", .scal (.sbool false)),
   ("trend_alignment", .scal (.sbool false)),
   ("momentum_threshold", .scal (.sfloat (1/100)))]

/-- The `exit_conditions` of the as-shipped MOMENTUM template
(strategy_engine.py lines 112-118). -/
def momentumExitConds : List (String × PyVal) :=
  [("profit_target", .scal (.sfloat (4/100))),
   ("stop_loss", .scal (.sfloat (2/100))),
   ("time_limit_hours", .scal (.sint 6)),
   ("rsi_overbought", .scal (.sint 75)),
   ("momentum_reversal", .scal (.sbool true))]

/-- A freshly created MOMENTUM strategy as `_create_initial_strategies`
builds it. -/
def momentumStrategyRec : StrategyRec where
  strategy_id := "mom-1"
  name := "MOMENTUM-base"
  strategy_type := "MOMENTUM"
  entry_conditions := momentumEntryConds
  exit_conditions := momentumExitConds
  total_trades := 0
  winning_trades := 0
  total_profit := 0
  max_drawdown := 0
  win_rate := 0
  avg_profit := 0
  performance_score := 0
  created_at := 3
  last_used := 3
  is_active := true
  adaptation_count := 0
  success_streak := 0
  failure_streak := 0

/-- What the MOMENTUM `entry_conditions` become after one JSON round
trip: the `rsi_range` tuple comes back as a list. -/
def momentumEntryCondsLoaded : List (String × PyVal) :=
  [("min_score", .scal (.sint 55)),
   ("rsi_range", .plist [.sint 25, .sint 65]),
   ("volume_surge", .scal (.sbool false)),
   ("trend_alignment", .scal (.sbool false)),
   ("momentum_threshold", .scal (.sfloat (1/100)))]

/-- C8, counterexample: the as-shipped MOMENTUM strategy does **not**
survive the snapshot round trip with identical field values — its
tuple-valued `rsi_range` entry condition is reloaded as a JSON list, so
serialize-then-deserialize is not the identity on this registry. -/
theorem strategies_roundtrip_counterexample :
    loadStrategies (saveStrategies [("mom-1", momentumStrategyRec)]) ≠
      some [("mom-1", momentumStrategyRec)] := by
  have hentry : dictToPy (dictToJson momentumStrategyRec.entry_conditions) =
      momentumEntryCondsLoaded := by
    simp [momentumStrategyRec, momentumEntryConds, momentumEntryCondsLoaded,
      dictToPy, dictToJson, pyToJson, jsonToPy]
  have hexit : dictToPy (dictToJson momentumStrategyRec.exit_conditions) =
      momentumStrategyRec.exit_conditions := by
    simp [momentumStrategyRec, momentumExitConds, dictToPy, dictToJson,
      pyToJson, jsonToPy]
  have h1 : loadStrategies (saveStrategies [("mom-1", momentumStrategyRec)]) =
      some [("mom-1",
        { momentumStrategyRec with entry_conditions := momentumEntryCondsLoaded })] := by
    simp only [saveStrategies, List.map_cons, List.map_nil, loadStrategies,
      loadStrategy_saveStrategy_eq, hentry, hexit]
  rw [h1]
  intro h
  have h2 : momentumEntryCondsLoaded = momentumStrategyRec.entry_conditions := by
    have h3 := congrArg
      (fun o => o.map (fun l => l.map (fun kv : String × StrategyRec =>
        kv.2.entry_conditions))) h
    simpa using h3
  simp [momentumStrategyRec, momentumEntryConds, momentumEntryCondsLoaded] at h2

/-- C8 (amended): serialize-then-deserialize through the JSON snapshot
files is the identity on every position map, and on every strategy
registry whose condition dictionaries contain no tuple values; a
tuple-valued condition entry (such as the MOMENTUM template's
`rsi_range`) is the one exception, coming back as a list. -/
theorem snapshot_roundtrip (reg : List (String × StrategyRec))
    (m : List (String × Position))
    (h : ∀ kv ∈ reg, strategyTupleFree kv.2 = true) :
    loadStrategies (saveStrategies reg) = some reg ∧
      loadPositions (savePositions m) = some m :=
  ⟨loadStrategies_saveStrategies h, loadPositions_savePositions m⟩

/-- A small tuple-free strategy registry for the round-trip witness. -/
def trendStrategyRec : StrategyRec where
  strategy_id := "trend-1"
  name := "TREND-base"
  strategy_type := "TREND"
  entry_conditions :=
    [("min_score", .scal (.sint 45)),
     ("trend_strength", .scal (.sfloat (1/2))),
     ("ma_alignment", .scal (.sbool false)),
     ("volume_confirmation", .scal (.sbool false)),
     ("pullback_entry", .scal (.sbool false))]
  exit_conditions :=
    [("profit_target", .scal (.sfloat (6/100))),
     ("stop_loss", .scal (.sfloat (3/100))),
     ("time_limit_hours", .scal (.sint 12)),
     ("trend_break", .scal (.sbool true)),
     ("ma_crossover", .scal (.sbool true))]
  total_trades := 7
  winning_trades := 4
  total_profit := 9/100
  max_drawdown := -(3/100)
  win_rate := 4/7
  avg_profit := 9/700
  performance_score := 1/5
  created_at := 3
  last_used := 5
  is_active := true
  adaptation_count := 2
  success_streak := 1
  failure_streak := 0

/-- A concrete open position for the round-trip witness. -/
def btcPosition : Position where
  position_id := "pos-1"
  ticker := "KRW-BTC"
  strategy_id := "trend-1"
  entry_price := 50000
  quantity := 1/1000
  total_invested := 50
  current_price := 51000
  current_value := 51
  unrealized_pnl := 1
  unrealized_pnl_ratio := 1/50
  stop_loss := 49000
  take_profit := 56000
  entry_time := 3
  last_updated := 7
  strategy_name := "TREND-base"
  reasoning := "trend up"

theorem snapshot_roundtrip_witness :
    (∀ kv ∈ [("trend-1", trendStrategyRec)], strategyTupleFree kv.2 = true) ∧
      (loadStrategies (saveStrategies [("trend-1", trendStrategyRec)]) =
          some [("trend-1", trendStrategyRec)] ∧
        loadPositions (savePositions [("pos-1", btcPosition)]) =
          some [("pos-1", btcPosition)]) :=
  ⟨by decide,
   snapshot_roundtrip [("trend-1", trendStrategyRec)] [("pos-1", btcPosition)] (by decide)⟩

/-! ## Claims about `validate_signal` -/

/-- A risk-manager state in which every gate of `validate_signal` other
than the one under test passes. -/
def rmStateOk : RMState where
  emergency_mode := false
  risk_override := false
  daily_start_capital := 160000
  max_daily_loss := 5/100
  max_positions := 3
  capital_per_position := 20000
  alerts := 0
  history := 0

/-- A benign environment: flat daily P&L, low volatility, tight spread. -/
def rmEnvOk : RMEnv where
  currentCapital := 160000
  volatilityRisk := 5/100
  orderbook := some { bid_price := 1000, ask_price := 1001, spread := 1 }

/-- A BUY signal with the given confidence. -/
def buySignal (c : ℚ) : StrategySignal where
  strategy_id := "s1"
  ticker := "KRW-XRP"
  action := "BUY"
  confidence := c
  entry_price := 1000
  stop_loss := 950
  take_profit := 1100

/-- C1 (amended): for a BUY signal for which every check other than the
confidence gate passes, `validate_signal` accepts exactly when the
confidence is at least 0.7 — so decreasing the confidence below 0.7 flips
the verdict from accept to reject, but the boundary value 0.7 itself is
accepted (the source's test is the strict `confidence < 0.7`), not
rejected as the claim states. -/
theorem validate_signal_confidence_gate (st : RMState) (env : RMEnv)
    (signal : StrategySignal) (positions : List Position)
    (hbuy : signal.action = "BUY")
    (hem : st.emergency_mode = false)
    (hdl : ¬ dailyPnlRatio st env ≤ -st.max_daily_loss)
    (hmp : positions.length < st.max_positions)
    (hds : st.daily_start_capital ≠ 0)
    (hexp : (currentExposure positions + st.capital_per_position) /
      st.daily_start_capital ≤ 95/100)
    (hvol : env.volatilityRisk ≤ 15/100)
    (hcon : concentrationRisk signal.ticker positions = false)
    (hsp : spreadRisk env.orderbook ≤ 2/100) :
    (validateSignal st env signal positions).1 = true ↔ 7/10 ≤ signal.confidence := by
  have h1 : ¬ (signal.action ≠ "BUY") := by simp [hbuy]
  have h2 : ¬ (st.emergency_mode = true) := by simp [hem]
  have h4 : ¬ (st.max_positions ≤ positions.length) := not_le.mpr hmp
  have h6 : ¬ (95/100 <
      (currentExposure positions + st.capital_per_position) / st.daily_start_capital) :=
    not_lt.mpr hexp
  have h7 : ¬ ((15 : ℚ)/100 < env.volatilityRisk) := not_lt.mpr hvol
  have h8 : ¬ (concentrationRisk signal.ticker positions = true) := by simp [hcon]
  have h9 : ¬ ((2 : ℚ)/100 < spreadRisk env.orderbook) := not_lt.mpr hsp
  rw [validateSignal, if_neg h1, if_neg h2, if_neg hdl, if_neg h4, if_neg hds,
    if_neg h6, if_neg h7, if_neg h8]
  by_cases hc : signal.confidence < 7/10
  · rw [if_pos hc]
    simp [not_le.mpr hc]
  · rw [if_neg hc, if_neg h9]
    simp [not_lt.mp hc]

theorem validate_signal_confidence_gate_witness :
    (validateSignal rmStateOk rmEnvOk (buySignal (8/10)) []).1 = true := by
  refine (validate_signal_confidence_gate rmStateOk rmEnvOk (buySignal (8/10)) []
    rfl rfl ?_ ?_ ?_ ?_ ?_ ?_ ?_).mpr (by norm_num [buySignal])
  · norm_num [dailyPnlRatio, rmStateOk, rmEnvOk]
  · norm_num [rmStateOk]
  · norm_num [rmStateOk]
  · norm_num [currentExposure, rmStateOk]
  · norm_num [rmEnvOk]
  · norm_num [concentrationRisk, buySignal, btcRelated, ethRelated]
  · norm_num [spreadRisk, rmEnvOk]

/-- C1, counterexample: with every other check passing, a BUY signal
whose confidence is exactly 0.7 is **accepted** by `validate_signal`,
while the claim requires the boundary 0.7 to be a reject. -/
theorem confidence_boundary_counterexample :
    (buySignal (7/10)).confidence = 7/10 ∧
      (validateSignal rmStateOk rmEnvOk (buySignal (7/10)) []).1 = true := by
  constructor
  · rfl
  · norm_num [validateSignal, dailyPnlRatio, currentExposure, concentrationRisk,
      spreadRisk, rmStateOk, rmEnvOk, buySignal, btcRelated, ethRelated]

/-- C9: `validate_signal` accepts every non-BUY signal immediately — the
first check returns `(True, ...)` before any risk gate (emergency mode,
daily loss, position count, exposure, volatility, concentration,
confidence, spread) is evaluated, whatever the state and environment. -/
theorem validate_signal_non_buy (st : RMState) (env : RMEnv)
    (signal : StrategySignal) (positions : List Position)
    (h : signal.action ≠ "BUY") :
    validateSignal st env signal positions = (true, .notBuy) := by
  rw [validateSignal, if_pos h]

/-- The risk-manager state with the emergency latch set. -/
def rmStateEmergency : RMState := { rmStateOk with emergency_mode := true }

/-- A SELL signal used to witness the non-BUY short circuit. -/
def sellSignal : StrategySignal :=
  { buySignal (9/10) with action := "SELL" }

theorem validate_signal_non_buy_witness :
    rmStateEmergency.emergency_mode = true ∧
      validateSignal rmStateEmergency rmEnvOk sellSignal [] = (true, .notBuy) :=
  ⟨rfl, validate_signal_non_buy rmStateEmergency rmEnvOk sellSignal []
    (by simp [sellSignal, buySignal])⟩

/-! ## Claim about the emergency-mode latch -/

/-- One non-clearing step keeps the latch set. -/
theorem rmStep_preserves_emergency (s : RMState) (op : RMOp)
    (hem : s.emergency_mode = true) (hop : clearsEmergency op = false) :
    (rmStep s op).emergency_mode = true := by
  cases op <;> simp_all [rmStep, clearsEmergency]

/-- C6: once `emergency_mode` is set, no sequence of ordinary
risk-manager operations (signal validations, metric recomputations,
position-risk checks, history saves, further emergency entries, override
toggles) clears it; it is cleared exactly by an explicit
`exit_emergency_mode`, or by `reset_daily_limits` when the manual
`risk_override` flag is not set — `reset_daily_limits` under an active
override leaves the latch untouched. -/
theorem emergency_mode_latch :
    (∀ (s : RMState) (ops : List RMOp), s.emergency_mode = true →
        (∀ op ∈ ops, clearsEmergency op = false) →
        (rmRun s ops).emergency_mode = true) ∧
      (∀ s : RMState, (rmStep s .exitEmergency).emergency_mode = false) ∧
      (∀ (s : RMState) (c : ℚ), s.risk_override = false →
        (rmStep s (.resetDaily c)).emergency_mode = false) ∧
      (∀ (s : RMState) (c : ℚ), s.risk_override = true →
        (rmStep s (.resetDaily c)).emergency_mode = s.emergency_mode) := by
  refine ⟨?_, ?_, ?_, ?_⟩
  · intro s ops hem hops
    induction ops generalizing s with
    | nil => exact hem
    | cons op rest ih =>
      rw [rmRun, List.foldl_cons]
      exact ih (rmStep s op)
        (rmStep_preserves_emergency s op hem (hops op (List.mem_cons_self _ _)))
        (fun o ho => hops o (List.mem_cons_of_mem _ ho))
  · intro s
    rfl
  · intro s c hov
    rw [rmStep]
    by_cases hem : s.emergency_mode = true
    · rw [if_pos (by simp [hem, hov])]
    · rw [if_neg (by simp [hem])]
      simpa using hem
  · intro s c hov
    rw [rmStep, if_neg (by simp [hov])]

/-- The ordinary cycle used to witness the latch: validations, metric
recomputations, history saves, a repeated emergency entry, a risk check,
and an override toggle — none of which clears the latch. -/
def ordinaryCycle : List RMOp :=
  [.validate, .metrics, .saveHistory, .enter, .checkRisks, .overrideOn, .restoreOverride]

theorem emergency_mode_latch_witness :
    (rmRun rmStateEmergency ordinaryCycle).emergency_mode = true ∧
      (rmStep rmStateEmergency (.resetDaily 160000)).emergency_mode = false :=
  ⟨emergency_mode_latch.1 rmStateEmergency ordinaryCycle rfl
      (by intro op hop; fin_cases hop <;> rfl),
    emergency_mode_latch.2.2.1 rmStateEmergency 160000 rfl⟩

/-! ## Claims about the Trader's buy path -/

/-- C2 (amended): when the price lookup succeeds, `_execute_buy_order`
submits exactly the configured per-position capital — there is no
90%-of-balance cap; a balance below the per-position capital aborts the
order entirely instead of shrinking it. -/
theorem buy_amount_is_capital (st : TraderState) (env : BuyEnv) (p : ℚ)
    (hp : env.current_price = some p) :
    (st.capital_per_position ≤ env.krw_balance →
        submittedBuyAmount st env = some st.capital_per_position) ∧
      (env.krw_balance < st.capital_per_position →
        submittedBuyAmount st env = none) := by
  constructor
  · intro h
    simp [submittedBuyAmount, hp, not_lt.mpr h]
  · intro h
    simp [submittedBuyAmount, hp, h]

theorem buy_amount_is_capital_witness :
    submittedBuyAmount ⟨20000, 5000, 3⟩ ⟨some 100, 160000⟩ = some 20000 :=
  (buy_amount_is_capital ⟨20000, 5000, 3⟩ ⟨some 100, 160000⟩ 100 rfl).1 (by norm_num)

/-- C2, counterexample: with 100000 KRW available and a per-position
capital of 95000, the trader submits 95000 — not
`min(95000, 0.9·100000) = 90000` as the claim states. -/
theorem buy_amount_counterexample :
    submittedBuyAmount ⟨95000, 5000, 3⟩ ⟨some 100, 100000⟩ = some 95000 ∧
      submittedBuyAmount ⟨95000, 5000, 3⟩ ⟨some 100, 100000⟩ ≠
        some (min (95000 : ℚ) (9/10 * 100000)) := by
  have h : submittedBuyAmount ⟨95000, 5000, 3⟩ ⟨some 100, 100000⟩ = some 95000 := by
    norm_num [submittedBuyAmount]
  refine ⟨h, ?_⟩
  rw [h]
  have hmin : min (95000 : ℚ) (9/10 * 100000) = 90000 := by norm_num
  rw [hmin]
  norm_num

/-! ## Claim about the exit-condition priority -/

/-- C4 (amended): `_should_close_position` checks, in order: price ≤
stop-loss → STOP_LOSS; price ≥ take-profit → TAKE_PROFIT; held ≥24h with
loss < −2% → TIME_BASED; held ≥72h → FORCE_TIME; loss ≤ −10% → EMERGENCY.
The price-based checks do take precedence over everything (a position past
both its stop-loss and the 72-hour limit records STOP_LOSS), but the
24-hour TIME_BASED check precedes the 72-hour FORCE_TIME check and the
−10% EMERGENCY check — so a position held ≥72h with a −3% loss records
TIME_BASED, not FORCE_TIME as the claim states. -/
theorem exit_priority (now : ℕ) (p : Position) :
    (p.current_price ≤ p.stop_loss → shouldClosePosition now p = some .stopLoss) ∧
      (p.stop_loss < p.current_price → p.current_price < p.take_profit →
        24 ≤ ((now : ℚ) - (p.entry_time : ℚ)) / 3600 →
        p.unrealized_pnl_ratio < -(2/100) →
        shouldClosePosition now p = some .timeBased) ∧
      (p.stop_loss < p.current_price → p.current_price < p.take_profit →
        72 ≤ ((now : ℚ) - (p.entry_time : ℚ)) / 3600 →
        -(2/100) ≤ p.unrealized_pnl_ratio →
        shouldClosePosition now p = some .forceTime) ∧
      (p.stop_loss < p.current_price → p.current_price < p.take_profit →
        ((now : ℚ) - (p.entry_time : ℚ)) / 3600 < 24 →
        p.unrealized_pnl_ratio ≤ -(10/100) →
        shouldClosePosition now p = some .emergency) := by
  refine ⟨?_, ?_, ?_, ?_⟩
  · intro hstop
    rw [shouldClosePosition, if_pos hstop]
  · intro hstop htake h24 hpnl
    rw [shouldClosePosition, if_neg (not_le.mpr hstop), if_neg (not_le.mpr htake)]
    rw [if_pos ⟨h24, hpnl⟩]
  · intro hstop htake h72 hpnl
    rw [shouldClosePosition, if_neg (not_le.mpr hstop), if_neg (not_le.mpr htake)]
    rw [if_neg (by intro hc; exact absurd hpnl (not_le.mpr hc.2)), if_pos h72]
  · intro hstop htake h24 hpnl
    rw [shouldClosePosition, if_neg (not_le.mpr hstop), if_neg (not_le.mpr htake)]
    rw [if_neg (by intro hc; exact absurd hc.1 (not_le.mpr h24)),
      if_neg (not_le.mpr (by linarith)), if_pos hpnl]

/-- A position past both its stop-loss and the 72-hour limit (price 85 ≤
stop 90, held 73 hours at a −15% loss). -/
def stoppedPosition : Position where
  position_id := "p-stop"
  ticker := "KRW-ADA"
  strategy_id := "s1"
  entry_price := 100
  quantity := 1
  total_invested := 100
  current_price := 85
  current_value := 85
  unrealized_pnl := -15
  unrealized_pnl_ratio := -(15/100)
  stop_loss := 90
  take_profit := 110
  entry_time := 0
  last_updated := 0
  strategy_name := "s"
  reasoning := "r"

theorem exit_priority_witness :
    shouldClosePosition 262800 stoppedPosition = some .stopLoss :=
  (exit_priority 262800 stoppedPosition).1 (by norm_num [stoppedPosition])

/-- A position held exactly 72 hours at a −3% loss, with price strictly
between its stop-loss and take-profit. -/
def stalePosition : Position where
  position_id := "p-72h"
  ticker := "KRW-ETH"
  strategy_id := "s1"
  entry_price := 100
  quantity := 1
  total_invested := 100
  current_price := 97
  current_value := 97
  unrealized_pnl := -3
  unrealized_pnl_ratio := -(3/100)
  stop_loss := 90
  take_profit := 110
  entry_time := 0
  last_updated := 0
  strategy_name := "s"
  reasoning := "r"

/-- C4, counterexample: a position held 72 hours at a −3% unrealized loss
is closed as TIME_BASED — the 24-hour loss check fires first — not as
FORCE_TIME as the claim's priority order requires. -/
theorem exit_priority_counterexample :
    shouldClosePosition 259200 stalePosition = some .timeBased ∧
      shouldClosePosition 259200 stalePosition ≠ some .forceTime := by
  have h : shouldClosePosition 259200 stalePosition = some .timeBased := by
    norm_num [shouldClosePosition, stalePosition]
  exact ⟨h, by rw [h]; simp⟩

/-! ## Claims about `update_strategy_performance` -/

/-- `_adapt_strategy` leaves the performance counters and score
untouched — it only nudges condition parameters, bumps the adaptation
counter, and possibly clears `is_active`. -/
theorem adaptStrategy_counters (s : PerfStrategy) :
    (adaptStrategy s).winning_trades = s.winning_trades ∧
      (adaptStrategy s).success_streak = s.success_streak ∧
      (adaptStrategy s).failure_streak = s.failure_streak ∧
      (adaptStrategy s).total_trades = s.total_trades ∧
      (adaptStrategy s).performance_score = s.performance_score := by
  simp only [adaptStrategy, adaptNudge]
  split_ifs <;> simp [adjustConservative, adjustAggressive]

/-- A strategy whose adapted state meets the deactivation criteria ends
up inactive. -/
theorem adaptStrategy_deactivates (s : PerfStrategy)
    (h10 : 10 ≤ (adaptStrategy s).total_trades)
    (hscore : (adaptStrategy s).performance_score < 3/10)
    (hstreak : 5 ≤ (adaptStrategy s).failure_streak) :
    (adaptStrategy s).is_active = false := by
  rw [adaptStrategy] at *
  by_cases hcond : 10 ≤ (adaptNudge s).total_trades ∧
      (adaptNudge s).performance_score < 3/10 ∧ 5 ≤ (adaptNudge s).failure_streak
  · rw [if_pos hcond]
  · rw [if_neg hcond] at h10 hscore hstreak
    exact absurd ⟨h10, hscore, hstreak⟩ hcond

/-- The kept and removed parts of a filter partition the length. -/
theorem length_filter_not_add (p : α → Bool) (l : List α) :
    (l.filter fun a => !(p a)).length + (l.filter p).length = l.length := by
  induction l with
  | nil => rfl
  | cons a t ih =>
    by_cases h : p a <;> simp [h, List.filter_cons] <;> omega

/-- C5 (amended): after `update_strategy_performance`, a strategy whose
updated state has at least 10 trades, a performance score below 0.3 and a
failure streak of at least 5 has `is_active = false`; but no two-active
floor guards this deactivation — the ≥2 floor exists only in
`cleanup_poor_strategies`, which never *deletes* below 2 strategies when
at least 2 were present. -/
theorem strategy_deactivation (s : PerfStrategy) (tr : TradeResult) (now : ℕ)
    (h10 : 10 ≤ (applyTradeResult s tr now).total_trades)
    (hscore : (applyTradeResult s tr now).performance_score < 3/10)
    (hstreak : 5 ≤ (applyTradeResult s tr now).failure_streak) :
    (applyTradeResult s tr now).is_active = false ∧
      ∀ (reg : List (String × PerfStrategy)) (t : ℕ), 2 ≤ reg.length →
        2 ≤ (cleanupPoorStrategies reg t).length := by
  constructor
  · rw [applyTradeResult] at *
    exact adaptStrategy_deactivates _ h10 hscore hstreak
  · intro reg t h2
    rw [cleanupPoorStrategies]
    by_cases hguard : 2 ≤ reg.length -
        (reg.filter (fun kv => cleanupRemovable t kv.2)).length
    · rw [if_pos hguard]
      have := length_filter_not_add (fun kv => cleanupRemovable t kv.2) reg
      omega
    · rw [if_neg hguard]
      exact h2

/-- A chronically failing strategy: 19 trades, no wins, 9 consecutive
failures. -/
def failingStrategy : PerfStrategy where
  total_trades := 19
  winning_trades := 0
  total_profit := -(19/100)
  max_drawdown := -(1/100)
  win_rate := 0
  avg_profit := -(1/100)
  performance_score := 0
  is_active := true
  adaptation_count := 0
  success_streak := 0
  failure_streak := 9
  min_score := 55
  stop_loss := 2/100
  profit_target := 4/100
  last_used := 0

/-- A fresh, healthy strategy. -/
def healthyStrategy : PerfStrategy where
  total_trades := 0
  winning_trades := 0
  total_profit := 0
  max_drawdown := 0
  win_rate := 0
  avg_profit := 0
  performance_score := 0
  is_active := true
  adaptation_count := 0
  success_streak := 0
  failure_streak := 0
  min_score := 45
  stop_loss := 3/100
  profit_target := 6/100
  last_used := 0

/-- A registry holding exactly two active strategies. -/
def twoStrategyReg : List (String × PerfStrategy) :=
  [("bad", failingStrategy), ("good", healthyStrategy)]

/-- C5, counterexample: a registry with exactly 2 active strategies drops
to 1 active strategy after a single `update_strategy_performance` call
deactivates the failing one — the system does **not** retain at least 2
active strategies. -/
theorem strategy_floor_counterexample :
    activeCount twoStrategyReg = 2 ∧
      activeCount
        (updateStrategyPerformance twoStrategyReg "bad" ⟨some (-(1/100))⟩ 3600) = 1 := by
  constructor
  · rfl
  · have hgb : ("good" : String) ≠ "bad" := by decide
    norm_num [activeCount, updateStrategyPerformance, applyTradeResult,
      adaptStrategy, adaptNudge, adjustConservative, adjustAggressive,
      calcPerformanceScore, twoStrategyReg, failingStrategy, healthyStrategy,
      List.filter, hgb]

theorem strategy_deactivation_witness :
    (applyTradeResult failingStrategy ⟨some (-(1/100))⟩ 3600).is_active = false ∧
      2 ≤ (cleanupPoorStrategies twoStrategyReg 0).length := by
  have h := strategy_deactivation failingStrategy ⟨some (-(1/100))⟩ 3600
    (by norm_num [applyTradeResult, adaptStrategy, adaptNudge, adjustConservative,
      adjustAggressive, calcPerformanceScore, failingStrategy])
    (by norm_num [applyTradeResult, adaptStrategy, adaptNudge, adjustConservative,
      adjustAggressive, calcPerformanceScore, failingStrategy])
    (by norm_num [applyTradeResult, adaptStrategy, adaptNudge, adjustConservative,
      adjustAggressive, calcPerformanceScore, failingStrategy])
  exact ⟨h.1, h.2 twoStrategyReg 0 (by norm_num [twoStrategyReg])⟩

/-- C10: in `update_strategy_performance`, a closed trade whose
`profit_ratio` is exactly 0 — or absent, in which case 0 is used — takes
the losing branch: the win counter is unchanged, the success streak is
reset to 0, and the failure streak is incremented; only a strictly
positive profit counts as a win. -/
theorem zero_profit_is_loss (s : PerfStrategy) (tr : TradeResult) (now : ℕ)
    (h : tr.profit_ratio.getD 0 ≤ 0) :
    (applyTradeResult s tr now).winning_trades = s.winning_trades ∧
      (applyTradeResult s tr now).success_streak = 0 ∧
      (applyTradeResult s tr now).failure_streak = s.failure_streak + 1 := by
  simp only [applyTradeResult]
  rw [if_neg (not_lt.mpr h)]
  refine ⟨?_, ?_, ?_⟩
  · rw [(adaptStrategy_counters _).1]
  · rw [(adaptStrategy_counters _).2.1]
  · rw [(adaptStrategy_counters _).2.2.1]

theorem zero_profit_is_loss_witness :
    (applyTradeResult healthyStrategy ⟨some 0⟩ 42).winning_trades =
        healthyStrategy.winning_trades ∧
      (applyTradeResult healthyStrategy ⟨some 0⟩ 42).success_streak = 0 ∧
      (applyTradeResult healthyStrategy ⟨some 0⟩ 42).failure_streak =
        healthyStrategy.failure_streak + 1 :=
  zero_profit_is_loss healthyStrategy ⟨some 0⟩ 42 (by norm_num)

/-! ## Claim about the MACD computation -/

/-- C3: the code computes its "signal line" as the EMA of a *constant*
series built from the scalar MACD value, so the histogram is identically
zero.  On the two-point price series `[1, 2]` with the configured periods
(12, 26, 9), the histogram is 0 even though the MACD line differs from
the EMA(9) of the true MACD-line series that the spec describes — the
"histogram nonzero whenever the MACD line differs from its signal-period
EMA" reading is falsified by the code. -/
theorem macd_constant_signal_bug :
    (calcMacd [1, 2] 12 26 9).histogram = 0 ∧
      (calcMacd [1, 2] 12 26 9).macd ≠ specSignalLine [1, 2] 12 26 9 := by
  constructor
  · norm_num [calcMacd, emaLast, emaWeightedSum, emaWeightCount, List.replicate,
      List.cons_ne_nil]
  · norm_num [calcMacd, specSignalLine, specMacdSeries, listPrefixes, emaLast,
      emaWeightedSum, emaWeightCount, List.cons_ne_nil]

/-! ## Claim about the RSI computation -/

theorem deltasFrom_length (p : ℚ) (xs : List ℚ) :
    (deltasFrom p xs).length = xs.length := by
  induction xs generalizing p with
  | nil => rfl
  | cons x t ih => simp [deltasFrom, ih]

theorem deltas_length (xs : List ℚ) : (deltas xs).length = xs.length := by
  cases xs with
  | nil => rfl
  | cons p rest => simp [deltas, deltasFrom_length]

theorem gainOf_nonneg (d : Option ℚ) : 0 ≤ gainOf d := by
  cases d with
  | none => simp [gainOf]
  | some q =>
    rw [gainOf]
    split_ifs with h
    · exact le_of_lt h
    · exact le_refl 0

theorem lossOf_nonneg (d : Option ℚ) : 0 ≤ lossOf d := by
  cases d with
  | none => simp [lossOf]
  | some q =>
    rw [lossOf]
    split_ifs with h
    · linarith
    · exact le_refl 0

theorem lastRollingMean_eq_some {w : ℕ} {xs : List ℚ} {m : ℚ}
    (h : lastRollingMean w xs = some m) :
    1 ≤ w ∧ w ≤ xs.length ∧ m = (xs.drop (xs.length - w)).sum / (w : ℚ) := by
  rw [lastRollingMean] at h
  split_ifs at h with hc
  exact ⟨hc.1, hc.2, (Option.some_inj.mp h).symm⟩

theorem lastRollingMean_nonneg {w : ℕ} {xs : List ℚ} {m : ℚ}
    (hx : ∀ x ∈ xs, 0 ≤ x) (h : lastRollingMean w xs = some m) : 0 ≤ m := by
  obtain ⟨-, -, hm⟩ := lastRollingMean_eq_some h
  rw [hm]
  apply div_nonneg
  · exact List.sum_nonneg fun x hmem => hx x (List.mem_of_mem_drop hmem)
  · positivity

theorem calcRsi_bounds (prices : List ℚ) (period : ℕ) :
    0 ≤ calcRsi prices period ∧ calcRsi prices period ≤ 100 := by
  rw [calcRsi]
  rcases hg : lastRollingMean period ((deltas prices).map gainOf) with - | g
  · norm_num
  rcases hl : lastRollingMean period ((deltas prices).map lossOf) with - | l
  · norm_num
  have hg0 : 0 ≤ g := by
    refine lastRollingMean_nonneg (fun x hmem => ?_) hg
    obtain ⟨d, -, rfl⟩ := List.mem_map.mp hmem
    exact gainOf_nonneg d
  have hl0 : 0 ≤ l := by
    refine lastRollingMean_nonneg (fun x hmem => ?_) hl
    obtain ⟨d, -, rfl⟩ := List.mem_map.mp hmem
    exact lossOf_nonneg d
  dsimp only
  split_ifs with h1 h2
  · norm_num
  · norm_num
  · have hlpos : 0 < l := lt_of_le_of_ne hl0 (Ne.symm h1)
    have hrs : 0 ≤ g / l := div_nonneg hg0 hl0
    constructor
    · have hdiv : 100 / (1 + g / l) ≤ 100 := by
        apply div_le_self (by norm_num)
        linarith
      linarith
    · have hdiv : 0 < 100 / (1 + g / l) := by positivity
      linarith

theorem deltasFrom_pos {p : ℚ} {xs : List ℚ}
    (h : List.Chain' (· < ·) (p :: xs)) :
    ∀ d ∈ deltasFrom p xs, ∃ q, d = some q ∧ 0 < q := by
  induction xs generalizing p with
  | nil => intro d hd; simp [deltasFrom] at hd
  | cons x t ih =>
    rw [List.chain'_cons] at h
    intro d hd
    rw [deltasFrom, List.mem_cons] at hd
    rcases hd with rfl | hd
    · exact ⟨x - p, rfl, by linarith [h.1]⟩
    · exact ih h.2 d hd

theorem deltasFrom_neg {p : ℚ} {xs : List ℚ}
    (h : List.Chain' (· > ·) (p :: xs)) :
    ∀ d ∈ deltasFrom p xs, ∃ q, d = some q ∧ q < 0 := by
  induction xs generalizing p with
  | nil => intro d hd; simp [deltasFrom] at hd
  | cons x t ih =>
    rw [List.chain'_cons] at h
    intro d hd
    rw [deltasFrom, List.mem_cons] at hd
    rcases hd with rfl | hd
    · exact ⟨x - p, rfl, by have := h.1; simp only [gt_iff_lt] at this; linarith⟩
    · exact ih h.2 d hd

/-- With all genuine deltas positive, the loss series is identically
zero, so its last rolling mean over a valid window is zero. -/
theorem lossMean_of_rising {p : ℚ} {rest : List ℚ} {period : ℕ}
    (hchain : List.Chain' (· < ·) (p :: rest)) (hp : 1 ≤ period)
    (hlen : period ≤ rest.length + 1) :
    lastRollingMean period ((deltas (p :: rest)).map lossOf) = some 0 := by
  have hall : ∀ x ∈ (deltas (p :: rest)).map lossOf, x = 0 := by
    intro x hmem
    obtain ⟨d, hd, rfl⟩ := List.mem_map.mp hmem
    rw [deltas, List.mem_cons] at hd
    rcases hd with rfl | hd
    · rfl
    · obtain ⟨q, rfl, hq⟩ := deltasFrom_pos hchain d hd
      rw [lossOf, if_neg (not_lt.mpr (le_of_lt hq))]
  have hlength : ((deltas (p :: rest)).map lossOf).length = rest.length + 1 := by
    simp [deltas_length]
  rw [lastRollingMean, if_pos ⟨hp, by rw [hlength]; exact hlen⟩]
  have hzero : (((deltas (p :: rest)).map lossOf).drop
      (((deltas (p :: rest)).map lossOf).length - period)).sum = 0 :=
    List.sum_eq_zero fun x hmem => hall x (List.mem_of_mem_drop hmem)
  rw [hzero, zero_div]

/-- With all genuine deltas negative, the gain series is identically
zero. -/
theorem gainMean_of_falling {p : ℚ} {rest : List ℚ} {period : ℕ}
    (hchain : List.Chain' (· > ·) (p :: rest)) (hp : 1 ≤ period)
    (hlen : period ≤ rest.length + 1) :
    lastRollingMean period ((deltas (p :: rest)).map gainOf) = some 0 := by
  have hall : ∀ x ∈ (deltas (p :: rest)).map gainOf, x = 0 := by
    intro x hmem
    obtain ⟨d, hd, rfl⟩ := List.mem_map.mp hmem
    rw [deltas, List.mem_cons] at hd
    rcases hd with rfl | hd
    · rfl
    · obtain ⟨q, rfl, hq⟩ := deltasFrom_neg hchain d hd
      rw [gainOf, if_neg (not_lt.mpr (le_of_lt hq))]
  have hlength : ((deltas (p :: rest)).map gainOf).length = rest.length + 1 := by
    simp [deltas_length]
  rw [lastRollingMean, if_pos ⟨hp, by rw [hlength]; exact hlen⟩]
  have hzero : (((deltas (p :: rest)).map gainOf).drop
      (((deltas (p :: rest)).map gainOf).length - period)).sum = 0 :=
    List.sum_eq_zero fun x hmem => hall x (List.mem_of_mem_drop hmem)
  rw [hzero, zero_div]

/-- When the series has at least `period+1` points, the last `period`
deltas are all genuine, so on a strictly monotone series the
corresponding gain/loss rolling mean is strictly positive. -/
theorem mappedMean_pos {p : ℚ} {rest : List ℚ} {period : ℕ}
    (f : Option ℚ → ℚ) (hp : 1 ≤ period) (hlen : period + 1 ≤ rest.length + 1)
    (hpos : ∀ d ∈ deltasFrom p rest, 0 < f d) :
    ∃ m, lastRollingMean period ((deltas (p :: rest)).map f) = some m ∧ 0 < m := by
  have hlength : ((deltas (p :: rest)).map f).length = rest.length + 1 := by
    simp [deltas_length]
  refine ⟨_, by rw [lastRollingMean, if_pos ⟨hp, by rw [hlength]; omega⟩], ?_⟩
  apply div_pos
  · set l := (deltas (p :: rest)).map f with hl
    have hshape : l = f none :: (deltasFrom p rest).map f := by
      rw [hl, deltas, List.map_cons]
    obtain ⟨k, hk⟩ : ∃ k, l.length - period = k + 1 := by
      rw [hl, hlength]
      exact ⟨rest.length - period, by omega⟩
    have hwin : l.drop (l.length - period) =
        ((deltasFrom p rest).map f).drop k := by
      rw [hk, hshape, List.drop_succ_cons]
    apply List.sum_pos
    · intro x hmem
      rw [hwin] at hmem
      obtain ⟨d, hd, rfl⟩ := List.mem_map.mp (List.mem_of_mem_drop hmem)
      exact hpos d hd
    · have hwl : (l.drop (l.length - period)).length = period := by
        rw [List.length_drop, hl, hlength]
        omega
      intro hnil
      rw [hnil] at hwl
      simp at hwl
      omega
  · exact_mod_cast Nat.lt_of_lt_of_le Nat.zero_lt_one hp

/-- A strictly rising series of at least `period+1` points yields RSI
exactly 100. -/
theorem calcRsi_rising {prices : List ℚ} {period : ℕ} (hp : 1 ≤ period)
    (hchain : List.Chain' (· < ·) prices) (hlen : period + 1 ≤ prices.length) :
    calcRsi prices period = 100 := by
  obtain ⟨p, rest, rfl⟩ : ∃ p rest, prices = p :: rest := by
    cases prices with
    | nil => simp at hlen
    | cons p rest => exact ⟨p, rest, rfl⟩
  rw [List.length_cons] at hlen
  obtain ⟨g, hg, hgpos⟩ := mappedMean_pos gainOf hp hlen (fun d hd => by
    obtain ⟨q, rfl, hq⟩ := deltasFrom_pos hchain d hd
    rw [gainOf, if_pos hq]
    exact hq)
  have hl := lossMean_of_rising hchain hp (by omega)
  rw [calcRsi, hg, hl]
  dsimp only
  rw [if_pos rfl, if_neg (ne_of_gt hgpos)]

/-- A strictly falling series of at least `period+1` points yields RSI
exactly 0. -/
theorem calcRsi_falling {prices : List ℚ} {period : ℕ} (hp : 1 ≤ period)
    (hchain : List.Chain' (· > ·) prices) (hlen : period + 1 ≤ prices.length) :
    calcRsi prices period = 0 := by
  obtain ⟨p, rest, rfl⟩ : ∃ p rest, prices = p :: rest := by
    cases prices with
    | nil => simp at hlen
    | cons p rest => exact ⟨p, rest, rfl⟩
  rw [List.length_cons] at hlen
  obtain ⟨l, hl, hlpos⟩ := mappedMean_pos lossOf hp hlen (fun d hd => by
    obtain ⟨q, rfl, hq⟩ := deltasFrom_neg hchain d hd
    rw [lossOf, if_pos hq]
    linarith)
  have hg := gainMean_of_falling hchain hp (by omega)
  rw [calcRsi, hg, hl]
  dsimp only
  rw [if_neg (ne_of_gt hlpos)]
  rw [zero_div]
  norm_num

/-- A series shorter than the window yields the 50.0 fallback. -/
theorem calcRsi_short {prices : List ℚ} {period : ℕ}
    (hlen : prices.length < period) : calcRsi prices period = 50 := by
  have hg : lastRollingMean period ((deltas prices).map gainOf) = none := by
    rw [lastRollingMean, if_neg]
    intro hc
    rw [List.length_map, deltas_length] at hc
    omega
  rw [calcRsi, hg]

/-- C7 (amended): the analyzer's RSI always lies in [0, 100]; a strictly
rising series of at least `period+1` points gives exactly 100 and a
strictly falling one exactly 0; and a series with fewer than `period`
points returns exactly 50.0.  (At *exactly* `period` points the claim's
"fewer than period+1 returns 50" fails: the leading NaN delta is coerced
to 0 by `where`, the rolling window fills, and a genuine value is
returned.) -/
theorem rsi_properties (period : ℕ) (hp : 1 ≤ period) :
    (∀ prices : List ℚ, 0 ≤ calcRsi prices period ∧ calcRsi prices period ≤ 100) ∧
      (∀ prices : List ℚ, List.Chain' (· < ·) prices →
        period + 1 ≤ prices.length → calcRsi prices period = 100) ∧
      (∀ prices : List ℚ, List.Chain' (· > ·) prices →
        period + 1 ≤ prices.length → calcRsi prices period = 0) ∧
      (∀ prices : List ℚ, prices.length < period → calcRsi prices period = 50) :=
  ⟨fun prices => calcRsi_bounds prices period,
   fun _ hchain hlen => calcRsi_rising hp hchain hlen,
   fun _ hchain hlen => calcRsi_falling hp hchain hlen,
   fun _ hlen => calcRsi_short hlen⟩

theorem rsi_properties_witness :
    calcRsi [1, 2, 3] 2 = 100 ∧ calcRsi [3, 2, 1] 2 = 0 ∧ calcRsi [5] 2 = 50 :=
  ⟨(rsi_properties 2 (by norm_num)).2.1 [1, 2, 3]
      (by norm_num [List.chain'_cons, List.chain'_singleton]) (by norm_num),
   (rsi_properties 2 (by norm_num)).2.2.1 [3, 2, 1]
      (by norm_num [List.chain'_cons, List.chain'_singleton]) (by norm_num),
   (rsi_properties 2 (by norm_num)).2.2.2 [5] (by norm_num)⟩

/-- A strictly rising series of exactly 14 points (`period` = 14). -/
def risingFourteen : List ℚ :=
  [1, 2, 3, 4, 5, 6, 7, 8, 9, 10, 11, 12, 13, 14]

/-- C7, counterexample: with the default period 14, a strictly rising
series of exactly 14 points — fewer than `period+1` — returns RSI 100,
not 50.0: the leading NaN delta is coerced to 0 by `.where(...)`, so the
14-wide rolling window already fills at 14 points. -/
theorem rsi_exact_period_counterexample :
    risingFourteen.length < 14 + 1 ∧ calcRsi risingFourteen 14 = 100 ∧
      calcRsi risingFourteen 14 ≠ 50 := by
  have hval : calcRsi risingFourteen 14 = 100 := by
    norm_num [calcRsi, risingFourteen, deltas, deltasFrom, gainOf, lossOf,
      lastRollingMean]
  refine ⟨by norm_num [risingFourteen], hval, by rw [hval]; norm_num⟩

end CoinBot
